import Mathlib

/-!
Verification development for the conservation-mode battery daemon.

The daemon's decision engine, poll tick and control-plane handler are
embedded as pure Lean functions, translated from the Go source
(`runOnce`, `handleConn`, `parseTimeString`, `stateString`).

Modelling conventions:
* battery percentages are rationals (the source uses `float64`);
* wall-clock instants are rationals counting minutes on a linear
  timeline where a day is 1440 minutes (the source uses `time.Time`;
  `time.Now()` becomes an explicit `now` parameter, `t1.After(t2)`
  becomes `t2 < t1`, `t.Add(-d)` becomes `t - d`);
* the conversion `time.Duration(maxPercent - pct)` truncates the
  float toward zero, modelled by `ratTrunc`;
* fallible collaborator reads (`readUPower`, `readConservation`)
  become `Except String` inputs carrying the error string;
* the external-display sensor result is a `Bool` input (the source
  leaves `extConn = false` when the sensor errors, so the input is the
  effective value the decision sees);
* the hardware-flag write is returned as an `Option ℕ` (the value a
  real write would be attempted with), since the source only logs the
  write's outcome and its state updates do not depend on it.
-/

set_option linter.unusedVariables false

namespace Conservationd

/-- Truncation of a rational toward zero, the semantics of Go's
`time.Duration(f)` conversion from `float64`. -/
def ratTrunc (q : ℚ) : ℤ :=
  Int.tdiv q.num (q.den : ℤ)

/-- Battery charge state codes as reported by the power reader
(UPower `State`): 0 unknown, 1 charging, 2 discharging, 3 empty,
4 full, 5 pending. -/
abbrev BatteryState := ℕ

/-- The daemon configuration fields relevant to the decision engine and
the control plane (source `Config`; the operational fields `PollInterval`,
`Once`, `SysfsPath`, `SockPath`, `SockGroup` play no role in the claims
and are omitted). `targetTime` is in minutes on the model timeline. -/
structure Config where
  maxPercent : ℚ
  conservationThreshold : ℚ
  dryRun : Bool
  auto : Bool
  targetTime : Option ℚ
  levelReached : Bool
  deriving DecidableEq

/-- The mutex-guarded shared record (source `SharedState`): configuration
plus the published measurement snapshot. -/
structure SharedState where
  cfg : Config
  pct : ℚ
  bstate : BatteryState
  cons : ℕ
  lastErr : String
  deriving DecidableEq

/-- A decoded control-plane request (source `Req`). `time = ""` models an
omitted time field (Go's zero value), `auto = none` an absent `auto`. -/
structure Req where
  cmd : String
  max : ℚ
  time : String
  auto : Option Bool
  deriving DecidableEq

/-- A control-plane response (source `Resp`); fields left at their Go
zero values model fields omitted by `omitempty`. -/
structure Resp where
  ok : Bool
  msg : String := ""
  max : ℚ := 0
  pct : ℚ := 0
  state : String := ""
  cons : ℕ := 0
  time : String := ""
  auto : Bool := false
  deriving DecidableEq

/-- Source `stateString`: label for a battery state code. -/
def stateString (s : BatteryState) : String :=
  if s = 1 then "charging"
  else if s = 2 then "discharging"
  else if s = 4 then "full"
  else if s = 3 then "empty"
  else if s = 5 then "pending"
  else "unknown"

/-- Parsing of an `"HH:MM"` wall-clock string, the `time.Parse("15:04", s)`
step of source `parseTimeString`: one or two digit hour below 24, exactly
two digit minute below 60, nothing else. -/
def parseHM (s : String) : Option (ℕ × ℕ) :=
  match s.data with
  | [h1, ':', m1, m2] =>
      if h1.isDigit && m1.isDigit && m2.isDigit then
        let h := h1.toNat - 48
        let m := 10 * (m1.toNat - 48) + (m2.toNat - 48)
        if h ≤ 23 && m ≤ 59 then some (h, m) else none
      else none
  | [h1, h2, ':', m1, m2] =>
      if h1.isDigit && h2.isDigit && m1.isDigit && m2.isDigit then
        let h := 10 * (h1.toNat - 48) + (h2.toNat - 48)
        let m := 10 * (m1.toNat - 48) + (m2.toNat - 48)
        if h ≤ 23 && m ≤ 59 then some (h, m) else none
      else none
  | _ => none

/-- Midnight of the day containing `now` on the model timeline
(the `time.Date(now.Year(), now.Month(), now.Day(), ...)` date part). -/
def todayMidnight (now : ℚ) : ℚ :=
  1440 * (⌊now / 1440⌋ : ℤ)

/-- Source `parseTimeString`: `"now"` maps to the current instant; an
`"HH:MM"` string maps to today's occurrence of that wall-clock time,
bumped by one day when it is before `now` plus one minute. -/
def parseTimeString (timeStr : String) (now : ℚ) : Except String ℚ :=
  if timeStr = "now" then Except.ok now
  else
    match parseHM timeStr with
    | none => Except.error ("time must be in HH:MM format, got " ++ timeStr)
    | some (h, m) =>
        let target : ℚ := todayMidnight now + (h * 60 + m)
        if target < now + 1 then Except.ok (target + 1440)
        else Except.ok target

/-- Two-digit zero-padded decimal. -/
def pad2 (n : ℕ) : String :=
  if n < 10 then "0" ++ toString n else toString n

/-- Rendering of a model instant in the `"15:04"` layout used by the
source when echoing `TargetTime`. -/
def formatHM (t : ℚ) : String :=
  let m : ℤ := (⌊t⌋ : ℤ) % 1440
  pad2 ((Int.tdiv m 60).toNat) ++ ":" ++ pad2 ((m % 60).toNat)

/-- Result of one decision-engine evaluation: the desired flag value
`want`, the diagnostic `action` label, and the configuration fields the
tick writes back to shared state. -/
structure EngineResult where
  want : ℕ
  action : String
  levelReached : Bool
  targetTime : Option ℚ
  deriving DecidableEq

/-- Charging time needed under the fixed 1 %/minute heuristic, in model
minutes (source: `time.Duration(cfg.MaxPercent-pct) * time.Minute`). -/
def chargingTimeNeeded (maxPercent pct : ℚ) : ℚ :=
  (ratTrunc (maxPercent - pct) : ℤ)

/-- Start of the charging window (source: `target.Add(-chargingTimeNeeded)`). -/
def schedStartTime (target maxPercent pct : ℚ) : ℚ :=
  target - chargingTimeNeeded maxPercent pct

/-- The decision portion of source `runOnce` (lines 209-333): from the
configuration snapshot, measured percentage, currently observed flag,
effective display-sensor value and current instant, compute the desired
flag, the action label, and the updated sticky/schedule fields. -/
def runOnceDecision (cfg : Config) (pct : ℚ) (cur : ℕ)
    (displayConnected : Bool) (now : ℚ) : EngineResult :=
  let extConn : Bool := cfg.auto && displayConnected
  if cfg.maxPercent ≤ cfg.conservationThreshold then
    if cfg.auto && !extConn then
      ⟨0, "disable_conservation_display_disconnected",
        cfg.levelReached, cfg.targetTime⟩
    else
      ⟨1, "enable_conservation_threshold_mode",
        cfg.levelReached, cfg.targetTime⟩
  else
    let levelReached : Bool := cfg.levelReached || decide (cfg.maxPercent ≤ pct)
    match cfg.targetTime with
    | some target =>
        let startTime := schedStartTime target cfg.maxPercent pct
        if levelReached then
          if target < now then
            ⟨1, "enable_conservation_schedule_completed", levelReached, none⟩
          else
            ⟨1, "enable_conservation_level_reached", levelReached, some target⟩
        else if target < now then
          if cfg.auto then
            if extConn then
              ⟨1, "enable_conservation_display_connected", levelReached, none⟩
            else
              ⟨0, "disable_conservation_display_disconnected", levelReached, none⟩
          else
            if cfg.maxPercent ≤ pct then
              ⟨1, "enable_conservation_immediate", levelReached, none⟩
            else
              ⟨0, "disable_conservation_immediate", levelReached, none⟩
        else if startTime < now then
          ⟨0, "disable_conservation_scheduled_charging", levelReached, some target⟩
        else if cfg.maxPercent ≤ pct then
          ⟨1, "enable_conservation_target_percentage_reached", true, some target⟩
        else if cfg.auto && !extConn then
          ⟨0, "disable_conservation_display_disconnected", levelReached, some target⟩
        else
          ⟨1, "enable_conservation_waiting_for_schedule", levelReached, some target⟩
    | none =>
        if levelReached then
          ⟨1, "enable_conservation_level_reached", levelReached, none⟩
        else if cfg.auto then
          if extConn then
            ⟨1, "enable_conservation_display_connected", levelReached, none⟩
          else
            ⟨0, "disable_conservation_display_disconnected", levelReached, none⟩
        else
          ⟨0, "disable_conservation_charging_to_target", levelReached, none⟩

/-- One full poll tick, source `runOnce`: the two collaborator reads are
supplied as `Except` values carrying Go's error strings; `writeOk` is the
outcome a hardware write would have (the source only logs it). Returns the
updated shared state and the flag value a real (non-dry-run) write is
attempted with, if any. -/
def runOnce (st : SharedState) (powerRead : Except String (ℚ × BatteryState))
    (consRead : Except String ℕ) (displayConnected : Bool) (writeOk : Bool)
    (now : ℚ) : SharedState × Option ℕ :=
  let cfg := st.cfg
  match powerRead with
  | Except.error e => ({ st with lastErr := e }, none)
  | Except.ok (pct, state) =>
      match consRead with
      | Except.error e => ({ st with lastErr := e }, none)
      | Except.ok cur =>
          let r := runOnceDecision cfg pct cur displayConnected now
          let writeAttempt : Option ℕ :=
            if r.want ≠ cur ∧ ¬cfg.dryRun then some r.want else none
          ({ st with
              cfg := { cfg with levelReached := r.levelReached,
                                targetTime := r.targetTime },
              pct := pct, bstate := state, cons := r.want },
            writeAttempt)

/-- The mutation-and-reply step of an accepted `set` (source `handleConn`
lines 415-433), after validation: install the new target time, max and
auto, reset `levelReached`, and echo the applied values. -/
def applySet (st : SharedState) (r : Req) (tt : Option ℚ) :
    SharedState × Resp :=
  let cfg2 : Config :=
    { st.cfg with
        targetTime := tt,
        maxPercent := r.max,
        levelReached := false,
        auto := match r.auto with | some b => b | none => st.cfg.auto }
  let timeStr := match cfg2.targetTime with
    | some t => formatHM t
    | none => "now"
  ({ st with cfg := cfg2 },
    { ok := true, max := cfg2.maxPercent, time := timeStr, auto := cfg2.auto })

/-- Source `handleConn`, as a pure transaction on the shared state: decode
already done, one request in, one response out. -/
def handleConn (st : SharedState) (r : Req) (now : ℚ) :
    SharedState × Resp :=
  if r.cmd = "set" then
    if r.max < st.cfg.conservationThreshold ∨ 100 < r.max then
      (st, { ok := false,
             msg := "max must be " ++ toString st.cfg.conservationThreshold
                      ++ "..100" })
    else if r.time ≠ "" ∧ r.time ≠ "now" then
      match parseTimeString r.time now with
      | Except.error e =>
          (st, { ok := false, msg := "invalid time format: " ++ e })
      | Except.ok t => applySet st r (some t)
    else
      applySet st r none
  else if r.cmd = "get" ∨ r.cmd = "status" then
    let timeStr := match st.cfg.targetTime with
      | some t => formatHM t
      | none => "now"
    (st, { ok := true, max := st.cfg.maxPercent, pct := st.pct,
           state := stateString st.bstate, cons := st.cons,
           time := timeStr, auto := st.cfg.auto })
  else
    (st, { ok := false, msg := "unknown cmd" })

/-- The configuration after one tick's decision, with the sticky flag and
schedule updates written back (no intervening `set`). -/
def tickCfg (cfg : Config) (pct : ℚ) (cur : ℕ) (displayConnected : Bool)
    (now : ℚ) : Config :=
  let r := runOnceDecision cfg pct cur displayConnected now
  { cfg with levelReached := r.levelReached, targetTime := r.targetTime }

/-- The configuration after a sequence of ticks, each supplying
`(pct, cur, displayConnected, now)`, with no intervening `set`. -/
def runTicks (cfg : Config) : List (ℚ × ℕ × Bool × ℚ) → Config
  | [] => cfg
  | (pct, cur, d, now) :: rest => runTicks (tickCfg cfg pct cur d now) rest

/-! Helper lemmas about the decision engine. -/

/-- The sticky flag is monotone: a tick never clears `levelReached`. -/
lemma runOnceDecision_lr_mono (cfg : Config) (pct : ℚ) (cur : ℕ) (d : Bool)
    (now : ℚ) (hl : cfg.levelReached = true) :
    (runOnceDecision cfg pct cur d now).levelReached = true := by
  unfold runOnceDecision
  simp only [hl, Bool.true_or]
  split
  · split <;> rfl
  · split <;> (try split) <;> (try split) <;> (try split) <;> (try split) <;>
      (try split) <;> rfl

/-- In target mode, observing `pct ≥ maxPercent` sets the sticky flag. -/
lemma runOnceDecision_lr_set (cfg : Config) (pct : ℚ) (cur : ℕ) (d : Bool)
    (now : ℚ) (hmax : cfg.conservationThreshold < cfg.maxPercent)
    (hp : cfg.maxPercent ≤ pct) :
    (runOnceDecision cfg pct cur d now).levelReached = true := by
  unfold runOnceDecision
  simp only [not_le.mpr hmax, if_false, hp, decide_True, Bool.or_true]
  split <;> (try split) <;> (try split) <;> (try split) <;> (try split) <;>
    (try split) <;> rfl

/-- In target mode a set sticky flag forces desired = 1. -/
lemma runOnceDecision_want_of_lr (cfg : Config) (pct : ℚ) (cur : ℕ) (d : Bool)
    (now : ℚ) (hmax : cfg.conservationThreshold < cfg.maxPercent)
    (hl : cfg.levelReached = true) :
    (runOnceDecision cfg pct cur d now).want = 1 := by
  unfold runOnceDecision
  simp only [not_le.mpr hmax, if_false, hl, Bool.true_or]
  split <;> (try split) <;> (try split) <;> (try split) <;> (try split) <;>
    simp_all

/-- A tick does not change `maxPercent`. -/
lemma tickCfg_maxPercent (cfg : Config) (pct : ℚ) (cur : ℕ) (d : Bool)
    (now : ℚ) : (tickCfg cfg pct cur d now).maxPercent = cfg.maxPercent := rfl

/-- A tick does not change `conservationThreshold`. -/
lemma tickCfg_threshold (cfg : Config) (pct : ℚ) (cur : ℕ) (d : Bool)
    (now : ℚ) :
    (tickCfg cfg pct cur d now).conservationThreshold
      = cfg.conservationThreshold := rfl

/-- Tick sequences do not change `maxPercent`. -/
lemma runTicks_maxPercent (l : List (ℚ × ℕ × Bool × ℚ)) (cfg : Config) :
    (runTicks cfg l).maxPercent = cfg.maxPercent := by
  induction l generalizing cfg with
  | nil => rfl
  | cons x rest ih =>
      obtain ⟨p, c, d, n⟩ := x
      rw [runTicks, ih, tickCfg_maxPercent]

/-- Tick sequences do not change `conservationThreshold`. -/
lemma runTicks_threshold (l : List (ℚ × ℕ × Bool × ℚ)) (cfg : Config) :
    (runTicks cfg l).conservationThreshold = cfg.conservationThreshold := by
  induction l generalizing cfg with
  | nil => rfl
  | cons x rest ih =>
      obtain ⟨p, c, d, n⟩ := x
      rw [runTicks, ih, tickCfg_threshold]

/-- Tick sequences never clear the sticky flag. -/
lemma runTicks_lr (l : List (ℚ × ℕ × Bool × ℚ)) (cfg : Config)
    (hl : cfg.levelReached = true) : (runTicks cfg l).levelReached = true := by
  induction l generalizing cfg with
  | nil => exact hl
  | cons x rest ih =>
      obtain ⟨p, c, d, n⟩ := x
      rw [runTicks]
      exact ih _ (runOnceDecision_lr_mono cfg p c d n hl)

/-- C2: with `maxPercent ≤ conservationThreshold` (threshold mode), the
engine computes desired = 1 for every percent, current flag and clock
input, except that desired = 0 when `auto` is on and no external display
is connected. -/
theorem thresholdMode_rule (cfg : Config) (pct : ℚ) (cur : ℕ)
    (displayConnected : Bool) (now : ℚ)
    (h : cfg.maxPercent ≤ cfg.conservationThreshold) :
    ((cfg.auto = true ∧ displayConnected = false) →
      (runOnceDecision cfg pct cur displayConnected now).want = 0) ∧
    (¬(cfg.auto = true ∧ displayConnected = false) →
      (runOnceDecision cfg pct cur displayConnected now).want = 1) := by
  cases ha : cfg.auto <;> cases hd : displayConnected <;>
    simp [runOnceDecision, h, ha, hd]

/-- C2 witness: a concrete threshold-mode configuration with `auto` on and
no display yields 0, and with `auto` off yields 1. -/
theorem thresholdMode_rule_witness :
    (runOnceDecision ⟨80, 80, false, true, none, false⟩ 50 1 false 0).want = 0 ∧
    (runOnceDecision ⟨80, 80, false, false, none, true⟩ 99 0 true 7).want = 1 := by
  constructor
  · exact (thresholdMode_rule ⟨80, 80, false, true, none, false⟩ 50 1 false 0
      (by norm_num)).1 ⟨rfl, rfl⟩
  · exact (thresholdMode_rule ⟨80, 80, false, false, none, true⟩ 99 0 true 7
      (by norm_num)).2 (by simp)

/-- C1: in target mode (`maxPercent > conservationThreshold`), once a tick
observes `pct ≥ maxPercent`, the sticky flag is set, and every subsequent
tick under the evolved configuration (no intervening `set`) computes
desired = 1, for any later percents, flags, displays and clocks — in both
the schedule and the immediate sub-branch. -/
theorem sticky_levelReached (cfg : Config) (pct0 : ℚ) (cur0 : ℕ) (d0 : Bool)
    (n0 : ℚ) (hmax : cfg.conservationThreshold < cfg.maxPercent)
    (hp : cfg.maxPercent ≤ pct0) (l : List (ℚ × ℕ × Bool × ℚ)) (pct : ℚ)
    (cur : ℕ) (d : Bool) (now : ℚ) :
    (tickCfg cfg pct0 cur0 d0 n0).levelReached = true ∧
    (runOnceDecision (runTicks (tickCfg cfg pct0 cur0 d0 n0) l)
        pct cur d now).want = 1 := by
  have h1 : (tickCfg cfg pct0 cur0 d0 n0).levelReached = true :=
    runOnceDecision_lr_set cfg pct0 cur0 d0 n0 hmax hp
  refine ⟨h1, runOnceDecision_want_of_lr _ pct cur d now ?_ (runTicks_lr l _ h1)⟩
  rw [runTicks_threshold, runTicks_maxPercent, tickCfg_threshold,
    tickCfg_maxPercent]
  exact hmax

/-- C1 witness: a concrete run — the target is observed at one tick, a
later tick under a dropped percent (and a cleared schedule) still yields
desired = 1. -/
theorem sticky_levelReached_witness :
    (tickCfg ⟨95, 80, false, false, some 540, false⟩ 95 0 false 100).levelReached
      = true ∧
    (runOnceDecision
        (runTicks (tickCfg ⟨95, 80, false, false, some 540, false⟩ 95 0 false 100)
          [(50, 1, false, 4000)]) 40 0 false 5000).want = 1 :=
  sticky_levelReached ⟨95, 80, false, false, some 540, false⟩ 95 0 false 100
    (by norm_num) (by norm_num) [(50, 1, false, 4000)] 40 0 false 5000

/-- C3: in target mode with a schedule set and the sticky flag still
false, a tick whose `now` is past `targetTime` clears the schedule, and
that same tick's desired value equals what the engine computes on the same
inputs with the schedule already cleared (the immediate sub-branch). -/
theorem missedDeadline_fallback (cfg : Config) (t pct : ℚ) (cur : ℕ)
    (d : Bool) (now : ℚ) (hmax : cfg.conservationThreshold < cfg.maxPercent)
    (ht : cfg.targetTime = some t) (hlr : cfg.levelReached = false)
    (hnow : t < now) :
    (runOnceDecision cfg pct cur d now).targetTime = none ∧
    (runOnceDecision cfg pct cur d now).want =
      (runOnceDecision { cfg with targetTime := none } pct cur d now).want := by
  by_cases hp : cfg.maxPercent ≤ pct <;>
    cases ha : cfg.auto <;> cases hd : d <;>
      simp [runOnceDecision, not_le.mpr hmax, ht, hlr, hnow, hp, ha, hd]

/-- C3 witness: a concrete missed deadline (`now = 600` past
`targetTime = 540`, percent below target) clears the schedule and decides
exactly as immediate mode does. -/
theorem missedDeadline_fallback_witness :
    (runOnceDecision ⟨95, 80, false, false, some 540, false⟩ 70 1 false 600).targetTime
      = none ∧
    (runOnceDecision ⟨95, 80, false, false, some 540, false⟩ 70 1 false 600).want =
      (runOnceDecision ⟨95, 80, false, false, none, false⟩ 70 1 false 600).want :=
  missedDeadline_fallback ⟨95, 80, false, false, some 540, false⟩ 540 70 1 false
    600 (by norm_num) rfl rfl (by norm_num)

/-- C4 counterexample: a successful tick in dry-run mode with
`maxPercent = conservationThreshold = 80`, `auto` off, observed flag 0:
the engine desires 1, no write is attempted (dry-run skip), yet the
published `cons` is 1 — the desired value, not the previously observed
value 0 that the claim requires for a skipped write. -/
theorem publishCons_counterexample :
    (runOnce ⟨⟨80, 80, true, false, none, false⟩, 50, 1, 0, ""⟩
        (Except.ok (50, 1)) (Except.ok 0) false true 0).2 = none ∧
    (runOnce ⟨⟨80, 80, true, false, none, false⟩, 50, 1, 0, ""⟩
        (Except.ok (50, 1)) (Except.ok 0) false true 0).1.cons = 1 ∧
    (1 : ℕ) ≠ 0 := by
  refine ⟨?_, ?_, by norm_num⟩ <;>
    norm_num [runOnce, runOnceDecision]

/-- C4 amended: after every successful tick (both reads succeeded), the
published snapshot's `cons` field equals the computed desired value,
regardless of whether the hardware write succeeded, failed, or was skipped
(dry-run or no change needed). -/
theorem publishCons_eq_want (st : SharedState) (pct : ℚ)
    (state : BatteryState) (cur : ℕ) (d w : Bool) (now : ℚ) :
    (runOnce st (Except.ok (pct, state)) (Except.ok cur) d w now).1.cons =
      (runOnceDecision st.cfg pct cur d now).want := rfl

/-- C5 counterexample: with `maxPercent = 95`, `conservationThreshold = 80`,
`auto` off, `targetTime = 09:00` (minute 540), `levelReached` false,
`percent = 60` at `now = 02:00` (minute 120), the engine computes a
35-minute charge window, start time 08:25 (minute 505) and `now` before
the start time — but desired is 1 (waiting branch with `auto` off), not 0
as the claim states. -/
theorem scenario1_counterexample :
    chargingTimeNeeded 95 60 = 35 ∧
    schedStartTime 540 95 60 = 505 ∧
    (120 : ℚ) < 505 ∧
    (runOnceDecision ⟨95, 80, false, false, some 540, false⟩ 60 0 false 120).want
      ≠ 0 := by
  refine ⟨?_, ?_, by norm_num, ?_⟩
  · show ((Int.tdiv (95 - 60 : ℚ).num ((95 - 60 : ℚ).den : ℤ) : ℤ) : ℚ) = 35
    norm_num
  · show (540 : ℚ) - chargingTimeNeeded 95 60 = 505
    show (540 : ℚ) - ((Int.tdiv (95 - 60 : ℚ).num ((95 - 60 : ℚ).den : ℤ) : ℤ) : ℚ) = 505
    norm_num
  · norm_num [runOnceDecision, schedStartTime, chargingTimeNeeded, ratTrunc]

/-- C5 amended: same configuration and inputs — the engine computes
chargeWindow = 35 minutes and startTime = 08:25, observes `now` before the
start time, and yields desired = 1, holding conservation until the
charging window opens (action `enable_conservation_waiting_for_schedule`). -/
theorem scenario1_amended :
    chargingTimeNeeded 95 60 = 35 ∧
    schedStartTime 540 95 60 = 505 ∧
    (120 : ℚ) < 505 ∧
    (runOnceDecision ⟨95, 80, false, false, some 540, false⟩ 60 0 false 120).want
      = 1 ∧
    (runOnceDecision ⟨95, 80, false, false, some 540, false⟩ 60 0 false 120).action
      = "enable_conservation_waiting_for_schedule" := by
  refine ⟨?_, ?_, by norm_num, ?_, ?_⟩
  · show ((Int.tdiv (95 - 60 : ℚ).num ((95 - 60 : ℚ).den : ℤ) : ℤ) : ℚ) = 35
    norm_num
  · show (540 : ℚ) - chargingTimeNeeded 95 60 = 505
    show (540 : ℚ) - ((Int.tdiv (95 - 60 : ℚ).num ((95 - 60 : ℚ).den : ℤ) : ℤ) : ℚ) = 505
    norm_num
  · norm_num [runOnceDecision, schedStartTime, chargingTimeNeeded, ratTrunc]
  · norm_num [runOnceDecision, schedStartTime, chargingTimeNeeded, ratTrunc]

/-- C8: a tick where the power read or the flag read fails records the
error string in `lastError`, attempts no hardware write, and leaves the
measurement snapshot (percent, battery state, conservation) and the
configuration unchanged. -/
theorem failedTick_frame (st : SharedState) (e : String)
    (pr : ℚ × BatteryState) (cr : Except String ℕ) (d w : Bool) (now : ℚ) :
    runOnce st (Except.error e) cr d w now = ({ st with lastErr := e }, none) ∧
    runOnce st (Except.ok pr) (Except.error e) d w now
      = ({ st with lastErr := e }, none) := by
  refine ⟨rfl, ?_⟩
  obtain ⟨p, s⟩ := pr
  rfl

/-- An accepted `set` transaction is an `applySet` with the target time
dictated by the request's `time` field: absent/`"now"` clears it, a
parseable string installs the parsed instant. -/
lemma handleConn_set_ok (st : SharedState) (r : Req) (now : ℚ)
    (hcmd : r.cmd = "set") (hok : ((handleConn st r now).2).ok = true) :
    ∃ tt, handleConn st r now = applySet st r tt ∧
      ((r.time = "" ∨ r.time = "now") → tt = none) ∧
      ((r.time ≠ "" ∧ r.time ≠ "now") →
        ∃ t, parseTimeString r.time now = Except.ok t ∧ tt = some t) := by
  unfold handleConn at hok ⊢
  rw [if_pos hcmd] at hok ⊢
  by_cases hv : r.max < st.cfg.conservationThreshold ∨ 100 < r.max
  · rw [if_pos hv] at hok
    simp at hok
  · rw [if_neg hv] at hok ⊢
    by_cases htime : r.time ≠ "" ∧ r.time ≠ "now"
    · rw [if_pos htime] at hok ⊢
      cases hp : parseTimeString r.time now with
      | error e =>
          rw [hp] at hok
          simp at hok
      | ok t =>
          refine ⟨some t, rfl, ?_, fun _ => ⟨t, rfl, rfl⟩⟩
          intro hc
          rcases htime with ⟨h1, h2⟩
          rcases hc with h | h
          · exact absurd h h1
          · exact absurd h h2
    · rw [if_neg htime]
      exact ⟨none, rfl, fun _ => rfl, fun hc => absurd hc htime⟩

/-- C6: every accepted `set` request — for any valid input, including a
`max` equal to the current one — resets `levelReached` to false and
replaces `targetTime`: the parsed instant when a non-`"now"` time string
is supplied, cleared when the time is `"now"` or omitted. -/
theorem set_resets_lifecycle (st : SharedState) (r : Req) (now : ℚ)
    (hcmd : r.cmd = "set") (hok : ((handleConn st r now).2).ok = true) :
    ((handleConn st r now).1).cfg.levelReached = false ∧
    ((r.time = "" ∨ r.time = "now") →
      ((handleConn st r now).1).cfg.targetTime = none) ∧
    ((r.time ≠ "" ∧ r.time ≠ "now") →
      ∃ t, parseTimeString r.time now = Except.ok t ∧
        ((handleConn st r now).1).cfg.targetTime = some t) := by
  obtain ⟨tt, heq, h1, h2⟩ := handleConn_set_ok st r now hcmd hok
  rw [heq]
  refine ⟨rfl, ?_, ?_⟩
  · intro h
    have htt := h1 h
    subst htt
    rfl
  · intro h
    obtain ⟨t, hpt, htt⟩ := h2 h
    subst htt
    exact ⟨t, hpt, rfl⟩

/-- C6 witness: an accepted `set` on a state with the sticky flag set and
a schedule present (new `max` differing, time omitted) leaves
`levelReached = false` and `targetTime` cleared. -/
theorem set_resets_lifecycle_witness :
    ((handleConn ⟨⟨95, 80, false, false, some 540, true⟩, 50, 1, 0, ""⟩
        ⟨"set", 90, "", none⟩ 100).1).cfg.levelReached = false ∧
    ((handleConn ⟨⟨95, 80, false, false, some 540, true⟩, 50, 1, 0, ""⟩
        ⟨"set", 90, "", none⟩ 100).1).cfg.targetTime = none := by
  have H := set_resets_lifecycle
    ⟨⟨95, 80, false, false, some 540, true⟩, 50, 1, 0, ""⟩
    ⟨"set", 90, "", none⟩ 100 rfl (by norm_num [handleConn, applySet])
  exact ⟨H.1, H.2.1 (Or.inl rfl)⟩

/-- C7: a `set` request with `max` below the conservation threshold, or
`max` above 100, or an unparseable time string, is rejected with
`ok = false` and a nonempty message, the shared state is unchanged, and a
subsequent `get` still reports the prior `maxPercent`. -/
theorem set_reject_atomic (st : SharedState) (r : Req) (now now2 : ℚ)
    (hcmd : r.cmd = "set")
    (hrej : r.max < st.cfg.conservationThreshold ∨ 100 < r.max ∨
      (r.time ≠ "" ∧ r.time ≠ "now" ∧
        ∃ e, parseTimeString r.time now = Except.error e)) :
    (handleConn st r now).1 = st ∧
    ((handleConn st r now).2).ok = false ∧
    ((handleConn st r now).2).msg ≠ "" ∧
    ((handleConn (handleConn st r now).1 ⟨"get", 0, "", none⟩ now2).2).max
      = st.cfg.maxPercent := by
  unfold handleConn
  rw [if_pos hcmd]
  by_cases hv : r.max < st.cfg.conservationThreshold ∨ 100 < r.max
  · rw [if_pos hv]
    refine ⟨rfl, rfl, ?_, ?_⟩
    · intro h
      have h2 := congrArg String.length h
      simp [String.length_append] at h2
      exact absurd h2.1.1 (by decide)
    · simp [handleConn]
  · have h3 : r.time ≠ "" ∧ r.time ≠ "now" ∧
        ∃ e, parseTimeString r.time now = Except.error e := by
      rcases hrej with h | h | h
      · exact absurd (Or.inl h) hv
      · exact absurd (Or.inr h) hv
      · exact h
    obtain ⟨h1, h2, e, hpe⟩ := h3
    rw [if_neg hv, if_pos ⟨h1, h2⟩, hpe]
    refine ⟨rfl, rfl, ?_, ?_⟩
    · intro h
      have hlen := congrArg String.length h
      simp [String.length_append] at hlen
      exact absurd hlen.1 (by decide)
    · simp [handleConn]

/-- C7 witness: `max = 70` against threshold 80 is rejected, the state is
untouched, and a following `get` still reports `max = 95`. -/
theorem set_reject_atomic_witness :
    (handleConn ⟨⟨95, 80, false, false, some 540, false⟩, 50, 1, 0, ""⟩
        ⟨"set", 70, "", none⟩ 0).1
      = ⟨⟨95, 80, false, false, some 540, false⟩, 50, 1, 0, ""⟩ ∧
    ((handleConn ⟨⟨95, 80, false, false, some 540, false⟩, 50, 1, 0, ""⟩
        ⟨"set", 70, "", none⟩ 0).2).ok = false ∧
    ((handleConn (handleConn ⟨⟨95, 80, false, false, some 540, false⟩, 50, 1, 0, ""⟩
          ⟨"set", 70, "", none⟩ 0).1 ⟨"get", 0, "", none⟩ 0).2).max = 95 := by
  have H := set_reject_atomic
    ⟨⟨95, 80, false, false, some 540, false⟩, 50, 1, 0, ""⟩
    ⟨"set", 70, "", none⟩ 0 0 rfl (Or.inl (by norm_num))
  exact ⟨H.1, H.2.1, H.2.2.2⟩

/-- C10: a `set` whose `auto` field is absent leaves the configured `auto`
unchanged while still applying the new `max` and the lifecycle resets;
only a `set` carrying an explicit `auto` value changes the flag; and
`get`/`status` requests never modify any state. -/
theorem set_auto_frame (st : SharedState) (r : Req) (now : ℚ) (b : Bool) :
    (r.cmd = "set" → r.auto = none → ((handleConn st r now).2).ok = true →
      ((handleConn st r now).1).cfg.auto = st.cfg.auto ∧
      ((handleConn st r now).1).cfg.maxPercent = r.max ∧
      ((handleConn st r now).1).cfg.levelReached = false) ∧
    (r.cmd = "set" → r.auto = some b → ((handleConn st r now).2).ok = true →
      ((handleConn st r now).1).cfg.auto = b) ∧
    ((r.cmd = "get" ∨ r.cmd = "status") → (handleConn st r now).1 = st) := by
  refine ⟨?_, ?_, ?_⟩
  · intro hcmd hauto hok
    obtain ⟨tt, heq, -, -⟩ := handleConn_set_ok st r now hcmd hok
    rw [heq]
    exact ⟨by simp [applySet, hauto], rfl, rfl⟩
  · intro hcmd hauto hok
    obtain ⟨tt, heq, -, -⟩ := handleConn_set_ok st r now hcmd hok
    rw [heq]
    simp [applySet, hauto]
  · intro hcmd
    unfold handleConn
    rcases hcmd with h | h <;> rw [h] <;> simp

/-- C10 witness: with `auto` configured on, an accepted `set` without an
`auto` field keeps `auto = true` while applying `max = 90` and the resets;
an accepted `set` with `auto = false` turns it off; a `get` leaves the
state untouched. -/
theorem set_auto_frame_witness :
    ((handleConn ⟨⟨95, 80, false, true, some 540, true⟩, 50, 1, 0, ""⟩
        ⟨"set", 90, "", none⟩ 0).1).cfg.auto = true ∧
    ((handleConn ⟨⟨95, 80, false, true, some 540, true⟩, 50, 1, 0, ""⟩
        ⟨"set", 90, "", none⟩ 0).1).cfg.maxPercent = 90 ∧
    ((handleConn ⟨⟨95, 80, false, true, some 540, true⟩, 50, 1, 0, ""⟩
        ⟨"set", 90, "", none⟩ 0).1).cfg.levelReached = false ∧
    ((handleConn ⟨⟨95, 80, false, true, some 540, true⟩, 50, 1, 0, ""⟩
        ⟨"set", 90, "", some false⟩ 0).1).cfg.auto = false ∧
    (handleConn ⟨⟨95, 80, false, true, some 540, true⟩, 50, 1, 0, ""⟩
        ⟨"get", 0, "", none⟩ 0).1
      = ⟨⟨95, 80, false, true, some 540, true⟩, 50, 1, 0, ""⟩ := by
  have H1 := (set_auto_frame ⟨⟨95, 80, false, true, some 540, true⟩, 50, 1, 0, ""⟩
    ⟨"set", 90, "", none⟩ 0 false).1 rfl rfl (by norm_num [handleConn, applySet])
  have H2 := (set_auto_frame ⟨⟨95, 80, false, true, some 540, true⟩, 50, 1, 0, ""⟩
    ⟨"set", 90, "", some false⟩ 0 false).2.1 rfl rfl
    (by norm_num [handleConn, applySet])
  have H3 := (set_auto_frame ⟨⟨95, 80, false, true, some 540, true⟩, 50, 1, 0, ""⟩
    ⟨"get", 0, "", none⟩ 0 false).2.2 (Or.inl rfl)
  exact ⟨H1.1, H1.2.1, H1.2.2, H2, H3⟩

/-- C9 counterexample: at `now = 539` (08:59:00) the string `"09:00"`
denotes today's minute 540, which is exactly — not more than — one minute
after `now`; the code keeps today's occurrence (stores 540), while the
claim requires the following day's occurrence 1980. -/
theorem parseTime_boundary_counterexample :
    parseTimeString "09:00" 539 = Except.ok 540 ∧
    ¬((539 : ℚ) + 1 < 540) ∧
    (540 : ℚ) ≠ 540 + 1440 := by
  have hp : parseHM "09:00" = some (9, 0) := by decide
  refine ⟨?_, by norm_num, by norm_num⟩
  unfold parseTimeString
  rw [if_neg (by decide : ¬("09:00" = "now")), hp]
  norm_num [todayMidnight]

/-- Reduction of `parseTimeString` on a parseable non-`"now"` string. -/
lemma parseTimeString_eq (s : String) (h m : ℕ) (now : ℚ)
    (hsnow : s ≠ "now") (hp : parseHM s = some (h, m)) :
    parseTimeString s now =
      if todayMidnight now + (h * 60 + m) < now + 1 then
        Except.ok (todayMidnight now + (h * 60 + m) + 1440)
      else Except.ok (todayMidnight now + (h * 60 + m)) := by
  unfold parseTimeString
  rw [if_neg hsnow, hp]

/-- C9 amended: for every accepted `"HH:MM"` time string, the stored
target is today's occurrence of that wall-clock time when that occurrence
is at least one minute after `now`, and the same time on the following day
otherwise; in both cases the stored target is strictly in the future. -/
theorem parseTime_future (s : String) (h m : ℕ) (now : ℚ)
    (hp : parseHM s = some (h, m)) :
    (now + 1 ≤ todayMidnight now + (h * 60 + m) →
      parseTimeString s now = Except.ok (todayMidnight now + (h * 60 + m))) ∧
    (todayMidnight now + (h * 60 + m) < now + 1 →
      parseTimeString s now
        = Except.ok (todayMidnight now + (h * 60 + m) + 1440)) ∧
    (∀ t, parseTimeString s now = Except.ok t → now < t) := by
  have hsnow : s ≠ "now" := by
    intro hs
    rw [hs] at hp
    rw [show parseHM "now" = none from by decide] at hp
    exact Option.noConfusion hp
  rw [parseTimeString_eq s h m now hsnow hp]
  refine ⟨fun hge => ?_, fun hlt => ?_, fun t htt => ?_⟩
  · rw [if_neg (not_lt.mpr hge)]
  · rw [if_pos hlt]
  · by_cases hc : todayMidnight now + (h * 60 + m) < now + 1
    · rw [if_pos hc] at htt
      injection htt with ht
      rw [← ht]
      have h0 : (0 : ℚ) ≤ (h : ℚ) * 60 + m := by positivity
      have hfl : now < ((⌊now / 1440⌋ : ℤ) + 1 : ℚ) * 1440 :=
        (div_lt_iff₀ (by norm_num)).mp (Int.lt_floor_add_one (now / 1440))
      unfold todayMidnight
      push_cast at hfl ⊢
      linarith
    · rw [if_neg hc] at htt
      injection htt with ht
      rw [← ht]
      linarith [not_lt.mp hc]

/-- C9 witness: `"09:00"` parsed at `now = 100` (01:40) stores today's
minute 540, which lies strictly in the future. -/
theorem parseTime_future_witness :
    parseTimeString "09:00" 100 = Except.ok 540 ∧ (100 : ℚ) < 540 := by
  have H := parseTime_future "09:00" 9 0 100 (by decide)
  refine ⟨?_, by norm_num⟩
  have h1 := H.1 (by norm_num [todayMidnight])
  rw [h1]
  norm_num [todayMidnight]

end Conservationd
